import Mathlib

/-!
Verification of the Daily-Expense-Tracker storage and service layers.

The Python code is shallowly embedded: SQLite rows become a `Row` structure,
the `expenses` table a list of rows with an auto-increment counter, numeric
amounts are modelled as rationals, and each method of
`DatabaseService` / `ExpenseService` / the validation utilities becomes a
Lean function following the source line by line.  The SQLite functions
`strftime('%Y', d)` / `strftime('%m', d)` are modelled as the year/month
character slices of an ISO-8601 `YYYY-MM-DD` date string, which is what they
compute on the date strings this application stores.
-/

/-- Rational addition in kernel-evaluable form (`Rat.add` is irreducible);
`qAdd_eq` below proves it is plain `+`. -/
def qAdd (a b : ℚ) : ℚ :=
  mkRat (a.num * b.den + b.num * a.den) (a.den * b.den)

/-- Rational multiplication in kernel-evaluable form; `qMul_eq` below
proves it is plain `*`. -/
def qMul (a b : ℚ) : ℚ :=
  mkRat (a.num * b.num) (a.den * b.den)

/-- Rational inverse in kernel-evaluable form; `qInv_eq` below proves it is
`⁻¹`. -/
def qInv (a : ℚ) : ℚ :=
  mkRat (if 0 ≤ a.num then (a.den : Int) else -(a.den : Int)) a.num.natAbs

/-- Rational division in kernel-evaluable form; `qDiv_eq` below proves it
is plain `/`. -/
def qDiv (a b : ℚ) : ℚ :=
  qMul a (qInv b)

/-- Sum of a list of rationals in kernel-evaluable form; `qSum_eq` below
proves it is `List.sum`. -/
def qSum : List ℚ → ℚ
  | [] => 0
  | a :: l => qAdd a (qSum l)

/-- Characters kept by the regex `[^\d.,\-]` substitution in
`utils/validation.py`: digits, dot, comma and minus survive. -/
def keepChar (c : Char) : Bool :=
  c.isDigit || c == '.' || c == ',' || c == '-'

/-- `re.sub(r"[^\d.,\-]", "", s)` from `validate_amount` / `parse_amount`. -/
def cleanAmount (s : String) : List Char :=
  s.toList.filter keepChar

/-- The `replace(",", ".")` step of `validate_amount` / `parse_amount`. -/
def commaToDot (c : Char) : Char :=
  if c == ',' then '.' else c

/-- Numeric value of a digit string, most significant digit first. -/
def digitsVal (l : List Char) : Nat :=
  l.foldl (fun a c => a * 10 + (c.toNat - 48)) 0

/-- Apply the sign recorded while parsing. -/
def applySign (neg : Bool) (q : ℚ) : ℚ :=
  if neg then -q else q

/-- Parse the unsigned part of a decimal literal the way Python's
`Decimal(...)` constructor does on the strings this code can produce:
digits with at most one dot; anything else raises `InvalidOperation`,
modelled as `none`. -/
def parseBody (neg : Bool) (body : List Char) : Option ℚ :=
  if body = [] then none
  else if ¬ body.all (fun c => c.isDigit || c == '.') then none
  else if body.count '.' = 0 then some (applySign neg (digitsVal body))
  else if body.count '.' = 1 then
    let ip := body.takeWhile (fun c => c != '.')
    let fp := (body.dropWhile (fun c => c != '.')).tail
    if ip = [] ∧ fp = [] then none
    else some (applySign neg (mkRat (digitsVal (ip ++ fp)) (10 ^ fp.length)))
  else none

/-- Python's `Decimal(string)` on a cleaned amount string (optional leading
minus, then digits/dots).  `none` models `InvalidOperation`. -/
def parseDecimal (l : List Char) : Option ℚ :=
  if l.head? = some '-' then parseBody true l.tail else parseBody false l

/-- `utils/validation.py` `validate_amount`: returns
`(is_valid, decimal_amount)`. -/
def validate_amount (s : String) : Bool × Option ℚ :=
  let cleaned := cleanAmount s
  if cleaned = [] then (false, none)
  else if 1 < cleaned.count '.' ∨ 1 < cleaned.count ',' ∨ 1 < cleaned.count '-' then
    (false, none)
  else if cleaned.contains '-' ∧ cleaned.head? ≠ some '-' then (false, none)
  else
    match parseDecimal (cleaned.map commaToDot) with
    | none => (false, none)
    | some a => if a ≤ 0 then (false, some a) else (true, some a)

/-- `utils/validation.py` `parse_amount`: parse to a number, `0` on any
invalid input (the `InvalidOperation` handler returns `Decimal("0")`). -/
def parse_amount (s : String) : ℚ :=
  let cleaned := cleanAmount s
  if cleaned = [] then 0
  else if cleaned.contains '-' ∧ cleaned.head? ≠ some '-' then 0
  else
    match parseDecimal (cleaned.map commaToDot) with
    | none => 0
    | some a => a

/-- Leap-year rule used by Python's calendar for `%d` range checking. -/
def isLeap (y : Nat) : Bool :=
  (y % 4 == 0 && y % 100 != 0) || y % 400 == 0

/-- Days in a month, for `strptime` day-range validation. -/
def daysInMonth (y m : Nat) : Nat :=
  if m = 2 then (if isLeap y then 29 else 28)
  else if m = 4 ∨ m = 6 ∨ m = 9 ∨ m = 11 then 30
  else 31

/-- `s.split("-")` semantics on a character list. -/
def splitOnDash : List Char → List (List Char)
  | [] => [[]]
  | c :: cs =>
    if c = '-' then [] :: splitOnDash cs
    else
      match splitOnDash cs with
      | [] => [[c]]
      | g :: gs => (c :: g) :: gs

/-- CPython `_strptime` pattern for `%Y`: exactly four digits. -/
def matchYear4 (l : List Char) : Option Nat :=
  if l.length = 4 ∧ l.all Char.isDigit then some (digitsVal l) else none

/-- CPython `_strptime` pattern for `%m`: `1[0-2]|0[1-9]|[1-9]`. -/
def matchMonth (l : List Char) : Option Nat :=
  match l with
  | [c] => if '1' ≤ c ∧ c ≤ '9' then some (c.toNat - 48) else none
  | [c1, c2] =>
    if c1 = '1' ∧ '0' ≤ c2 ∧ c2 ≤ '2' then some (10 + (c2.toNat - 48))
    else if c1 = '0' ∧ '1' ≤ c2 ∧ c2 ≤ '9' then some (c2.toNat - 48)
    else none
  | _ => none

/-- CPython `_strptime` pattern for `%d`:
`3[01]|[12]\d|0[1-9]|[1-9]| [1-9]` (a one-digit day may be space-padded). -/
def matchDay (l : List Char) : Option Nat :=
  match l with
  | [c] => if '1' ≤ c ∧ c ≤ '9' then some (c.toNat - 48) else none
  | [c1, c2] =>
    if c1 = '3' ∧ '0' ≤ c2 ∧ c2 ≤ '1' then some (30 + (c2.toNat - 48))
    else if ('1' ≤ c1 ∧ c1 ≤ '2') ∧ c2.isDigit then
      some ((c1.toNat - 48) * 10 + (c2.toNat - 48))
    else if c1 = '0' ∧ '1' ≤ c2 ∧ c2 ≤ '9' then some (c2.toNat - 48)
    else if c1 = ' ' ∧ '1' ≤ c2 ∧ c2 ≤ '9' then some (c2.toNat - 48)
    else none
  | _ => none

/-- `datetime.strptime(s, "%Y-%m-%d").date()`.  CPython compiles the format
to the anchored regex `(\d\d\d\d)-(1[0-2]|0[1-9]|[1-9])-(3[01]|[12]\d|`
`0[1-9]|[1-9]| [1-9])` and requires the whole string consumed; since none
of the three group patterns can contain a dash, this is equivalent to
splitting on `-` into exactly three groups matching those patterns.  The
`datetime.date` constructor then requires year ≥ 1 (MINYEAR) and the day
to exist in the month.  `none` models the `ValueError` raised on any
failure. -/
def strptimeYmd (s : String) : Option (Nat × Nat × Nat) :=
  match splitOnDash s.toList with
  | [ys, ms, ds] =>
    match matchYear4 ys, matchMonth ms, matchDay ds with
    | some y, some m, some d =>
      if 1 ≤ y ∧ d ≤ daysInMonth y m then some (y, m, d) else none
    | _, _, _ => none
  | _ => none

/-- Zero-pad a number to two digits: Python's `f"{month:02d}"`. -/
def pad2 (n : Nat) : String :=
  if n < 10 then "0" ++ toString n else toString n

/-- Zero-pad a year to four digits, as `date.isoformat()` does. -/
def pad4 (n : Nat) : String :=
  if n < 10 then "000" ++ toString n
  else if n < 100 then "00" ++ toString n
  else if n < 1000 then "0" ++ toString n
  else toString n

/-- `date(y, m, d).isoformat()`. -/
def dateToIso (d : Nat × Nat × Nat) : String :=
  pad4 d.1 ++ "-" ++ pad2 d.2.1 ++ "-" ++ pad2 d.2.2

/-- One row of the `expenses` table.  `id` is the AUTOINCREMENT key, which
also records creation order (it grows with `created_at`). -/
structure Row where
  id : Nat
  date : String
  category : String
  amount : ℚ
  description : String
  deriving Repr, DecidableEq

/-- The expense store: the `expenses` table plus the next AUTOINCREMENT id. -/
structure DB where
  rows : List Row
  nextId : Nat
  deriving Repr, DecidableEq

/-- A fresh database, as built by `initialize_database` (AUTOINCREMENT ids
start at 1). -/
def DB.empty : DB := ⟨[], 1⟩

/-- Well-formedness maintained by SQLite AUTOINCREMENT: every stored id is
below the next id to be handed out. -/
def DB.WF (db : DB) : Prop :=
  ∀ r ∈ db.rows, r.id < db.nextId

/-- Input to `add_expense` / `update_expense` after
`_extract_expense_data` and `_prepare_expense_for_db`: the date already
converted to its string form, the amount numeric. -/
structure ExpenseInput where
  date : String
  category : String
  amount : ℚ
  description : String
  deriving Repr, DecidableEq

/-- `DatabaseService.add_expense`: INSERT the four columns, return
`cursor.lastrowid`.  No amount check of any kind is performed. -/
def DB.add_expense (db : DB) (e : ExpenseInput) : Nat × DB :=
  let i := db.nextId
  (i, ⟨db.rows ++ [⟨i, e.date, e.category, e.amount, e.description⟩], i + 1⟩)

/-- `strftime('%Y', d)` on a stored ISO date string: its first four
characters. -/
def yearOf (d : String) : String :=
  (d.toList.take 4).asString

/-- `strftime('%m', d)` on a stored ISO date string: characters 5 and 6. -/
def monthOf (d : String) : String :=
  ((d.toList.drop 5).take 2).asString

/-- Python truthiness of an optional integer argument (`None` and `0` are
falsy). -/
def truthyNat (o : Option Nat) : Bool :=
  match o with
  | none => false
  | some n => n != 0

/-- Python truthiness of an optional string argument (`None` and `""` are
falsy). -/
def truthyStr (o : Option String) : Bool :=
  match o with
  | none => false
  | some s => s != ""

/-- The WHERE clause built by `DatabaseService.get_expenses`:
`month`+`year` filter both, `year` alone filters the year, a lone `month`
adds nothing; `category` is an exact-match conjunct. -/
def matchesFilters (month year : Option Nat) (category : Option String) (r : Row) : Bool :=
  (if truthyNat month && truthyNat year then
      yearOf r.date == toString (year.getD 0) && monthOf r.date == pad2 (month.getD 0)
    else if truthyNat year then yearOf r.date == toString (year.getD 0)
    else true)
  && (if truthyStr category then r.category == category.getD "" else true)

/-- `ORDER BY date DESC, created_at DESC`: `a` comes no later than `b`. -/
def rowOrder (a b : Row) : Prop :=
  b.date.toList < a.date.toList ∨ (a.date.toList = b.date.toList ∧ b.id ≤ a.id)

instance : DecidableRel rowOrder := fun a b => by
  unfold rowOrder; infer_instance

instance : IsTrans Row rowOrder where
  trans a b c h1 h2 := by
    rcases h1 with h1 | ⟨e1, i1⟩
    · rcases h2 with h2 | ⟨e2, i2⟩
      · exact Or.inl (lt_trans h2 h1)
      · exact Or.inl (by rw [← e2]; exact h1)
    · rcases h2 with h2 | ⟨e2, i2⟩
      · exact Or.inl (by rw [e1]; exact h2)
      · exact Or.inr ⟨e1.trans e2, le_trans i2 i1⟩

instance : IsTotal Row rowOrder where
  total a b := by
    rcases lt_trichotomy a.date.toList b.date.toList with h | h | h
    · exact Or.inr (Or.inl h)
    · rcases Nat.le_total a.id b.id with hi | hi
      · exact Or.inr (Or.inr ⟨h.symm, hi⟩)
      · exact Or.inl (Or.inr ⟨h, hi⟩)
    · exact Or.inl (Or.inl h)

/-- `DatabaseService.get_expenses`: filter by the optional month/year and
category arguments, order by date descending then creation order
descending. -/
def DB.get_expenses (db : DB) (month year : Option Nat) (category : Option String) :
    List Row :=
  List.insertionSort rowOrder (db.rows.filter (matchesFilters month year category))

/-- `DatabaseService.get_expense_by_id`: first row with the given id,
`None` when absent. -/
def DB.get_expense_by_id (db : DB) (i : Nat) : Option Row :=
  db.rows.find? (fun r => r.id == i)

/-- `DatabaseService.delete_expense`: DELETE WHERE id = ?, report whether a
row was affected. -/
def DB.delete_expense (db : DB) (i : Nat) : Bool × DB :=
  let remaining := db.rows.filter (fun r => r.id != i)
  (remaining.length < db.rows.length, ⟨remaining, db.nextId⟩)

/-- `DatabaseService.update_expense`: UPDATE the four columns WHERE id = ?,
report whether a row was affected. -/
def DB.update_expense (db : DB) (i : Nat) (e : ExpenseInput) : Bool × DB :=
  let updated := db.rows.map (fun r =>
    if r.id = i then ⟨r.id, e.date, e.category, e.amount, e.description⟩ else r)
  (db.rows.any (fun r => r.id == i), ⟨updated, db.nextId⟩)

/-- Does a row fall in the given month, per the `strftime` comparison used
by `get_expenses` and `get_monthly_summary`? -/
def inMonth (year month : Nat) (r : Row) : Bool :=
  yearOf r.date == toString year && monthOf r.date == pad2 month

/-- `SUM(amount)` for one category among the month's rows. -/
def sumFor (c : String) (rows : List Row) : ℚ :=
  qSum ((rows.filter (fun r => r.category == c)).map Row.amount)

/-- Result shape of `get_monthly_summary`. -/
structure Summary where
  year : Nat
  month : Nat
  total_expenses : ℚ
  category_breakdown : List (String × ℚ)
  deriving Repr, DecidableEq

/-- `ORDER BY total DESC` on breakdown entries. -/
def sumDesc (a b : String × ℚ) : Prop := b.2 ≤ a.2

instance : DecidableRel sumDesc := fun a b => by
  unfold sumDesc; infer_instance

instance : IsTrans (String × ℚ) sumDesc where
  trans _ _ _ h1 h2 := le_trans h2 h1

instance : IsTotal (String × ℚ) sumDesc where
  total a b := le_total b.2 a.2

/-- `DatabaseService.get_monthly_summary`: `COALESCE(SUM(amount), 0)` over
the month plus a per-category `GROUP BY` breakdown ordered by total
descending. -/
def DB.get_monthly_summary (db : DB) (year month : Nat) : Summary :=
  let rows := db.rows.filter (inMonth year month)
  let total := qSum (rows.map Row.amount)
  let cats := (rows.map Row.category).dedup
  let breakdown := cats.map (fun c => (c, sumFor c rows))
  ⟨year, month, total, List.insertionSort sumDesc breakdown⟩

/-- Result shape of the error-handling wrappers below: `Except.error`
models an exception propagating out of the Python method, `Except.ok` a
normal return. -/
abbrev DbRun (α : Type) := Except Unit α

/-- `add_expense` under a possible `sqlite3.Error` (`failure = true`): its
handler logs and re-raises, so the exception escapes. -/
def add_expense_run (failure : Bool) (db : DB) (e : ExpenseInput) : DbRun (Nat × DB) :=
  if failure then Except.error () else Except.ok (db.add_expense e)

/-- `get_expenses` under a possible `sqlite3.Error`: the handler catches it
and returns the empty list. -/
def get_expenses_run (failure : Bool) (db : DB) (month year : Option Nat)
    (category : Option String) : DbRun (List Row) :=
  if failure then Except.ok [] else Except.ok (db.get_expenses month year category)

/-- `get_expense_by_id` under a possible `sqlite3.Error`: the handler
catches it and returns `None`. -/
def get_expense_by_id_run (failure : Bool) (db : DB) (i : Nat) : DbRun (Option Row) :=
  if failure then Except.ok none else Except.ok (db.get_expense_by_id i)

/-- `update_expense` under a possible `sqlite3.Error`: the handler catches
it and returns `False`, with no write performed. -/
def update_expense_run (failure : Bool) (db : DB) (i : Nat) (e : ExpenseInput) :
    DbRun (Bool × DB) :=
  if failure then Except.ok (false, db) else Except.ok (db.update_expense i e)

/-- `delete_expense` under a possible `sqlite3.Error`: the handler catches
it and returns `False`, with no write performed. -/
def delete_expense_run (failure : Bool) (db : DB) (i : Nat) : DbRun (Bool × DB) :=
  if failure then Except.ok (false, db) else Except.ok (db.delete_expense i)

/-- `get_monthly_summary` under a possible `sqlite3.Error`: the handler
catches it and returns the zero summary, so the method never raises. -/
def get_monthly_summary_run (failure : Bool) (db : DB) (year month : Nat) : Summary :=
  if failure then ⟨year, month, 0, []⟩ else db.get_monthly_summary year month

/-- One category entry after `ExpenseService.get_monthly_analysis`: the
`percentage` key is only present (`some`) when the code added it. -/
structure BreakdownItem where
  category : String
  total : ℚ
  percentage : Option ℚ
  deriving Repr, DecidableEq

/-- Result shape of `ExpenseService.get_monthly_analysis`. -/
structure Analysis where
  year : Nat
  month : Nat
  total_expenses : ℚ
  category_breakdown : List BreakdownItem
  deriving Repr, DecidableEq

/-- `ExpenseService.get_monthly_analysis`: take the storage summary and,
only when `total > 0`, set `percentage = total_i / total * 100` on every
breakdown entry; when the total is zero the entries are left untouched
(no `percentage` key). -/
def ExpenseService.get_monthly_analysis (db : DB) (year month : Nat) : Analysis :=
  let s := db.get_monthly_summary year month
  let items :=
    if 0 < s.total_expenses then
      s.category_breakdown.map (fun p => ⟨p.1, p.2, some (qMul (qDiv p.2 s.total_expenses) 100)⟩)
    else
      s.category_breakdown.map (fun p => ⟨p.1, p.2, none⟩)
  ⟨year, month, s.total_expenses, items⟩

/-- Structured result returned by the service layer. -/
structure ServiceResult where
  success : Bool
  error : Option String
  expense_id : Option Nat
  deriving Repr, DecidableEq

/-- `ExpenseService.create_expense`.  The `if not validate_date(...)` and
`if not validate_amount(...)` guards in the source never fire (both
functions return a two-element tuple, which is always truthy), so the
behaviour is: `strptime` failure is caught as `ValueError`; then
`parse_amount` maps invalid input to `0` and the `amount <= 0` guard
rejects; otherwise the expense is written.  No category check exists on
this path. -/
def ExpenseService.create_expense (db : DB) (date_str category amount_str description : String) :
    ServiceResult × DB :=
  match strptimeYmd date_str with
  | none => (⟨false, some "Validation error: invalid date", none⟩, db)
  | some d =>
    let amount := parse_amount amount_str
    if amount ≤ 0 then (⟨false, some "Amount must be greater than 0", none⟩, db)
    else
      let (i, db2) := db.add_expense ⟨dateToIso d, category, amount, description⟩
      (⟨true, none, some i⟩, db2)

/-- `ExpenseService.validate_expense_data` error list.  The date and amount
`if not validate_*` guards never fire (truthy tuples); the reachable
checks are `parse_amount(...) <= 0` and the empty-category test. -/
def serviceValidationErrors (amount_str category : String) : List String :=
  (if parse_amount amount_str ≤ 0 then ["Amount must be greater than 0"] else []) ++
  (if (category.toList.dropWhile Char.isWhitespace).reverse.dropWhile Char.isWhitespace = []
    then ["Category is required"] else [])

/-- `ExpenseService.update_expense`: run `validate_expense_data` and return
its first error if any; then parse the date (`ValueError` caught); then
perform the storage update and report not-found as a structured error. -/
def ExpenseService.update_expense (db : DB) (i : Nat)
    (date_str category amount_str description : String) : ServiceResult × DB :=
  match serviceValidationErrors amount_str category with
  | e :: _ => (⟨false, some e, none⟩, db)
  | [] =>
    match strptimeYmd date_str with
    | none => (⟨false, some "Validation error: invalid date", none⟩, db)
    | some d =>
      let r := db.update_expense i ⟨dateToIso d, category, parse_amount amount_str, description⟩
      if r.1 then (⟨true, none, none⟩, r.2)
      else (⟨false, some "Expense not found", none⟩, r.2)

/-- The `CHECK (amount >= 0)` column constraint of the
`config/database_config.py` schema variant. -/
def configAmountCheck (a : ℚ) : Bool :=
  decide (0 ≤ a)

/-- Scenario expense: 2024-01-15, Food, 10000. -/
def eFood1 : ExpenseInput := ⟨"2024-01-15", "Food", 10000, ""⟩

/-- Scenario expense: 2024-01-20, Food, 20000. -/
def eFood2 : ExpenseInput := ⟨"2024-01-20", "Food", 20000, ""⟩

/-- Scenario expense: 2024-02-01, Transport, 5000. -/
def eTransport : ExpenseInput := ⟨"2024-02-01", "Transport", 5000, ""⟩

/-- The three-expense scenario database of the specification. -/
def dbScenario : DB :=
  (((DB.empty.add_expense eFood1).2.add_expense eFood2).2.add_expense eTransport).2

/-- A database holding one expense of amount `0`, inserted through the
storage layer (which performs no amount check). -/
def dbZero : DB :=
  (DB.empty.add_expense ⟨"2024-03-10", "Food", 0, ""⟩).2


theorem qAdd_eq (a b : ℚ) : qAdd a b = a + b := by
  rw [qAdd, Rat.mkRat_eq_divInt]
  push_cast
  rw [← Rat.divInt_add_divInt _ _
      (Int.natCast_ne_zero.mpr a.den_nz) (Int.natCast_ne_zero.mpr b.den_nz),
    Rat.num_divInt_den, Rat.num_divInt_den]

theorem qMul_eq (a b : ℚ) : qMul a b = a * b := by
  rw [qMul, Rat.mkRat_eq_divInt]
  push_cast
  rw [← Rat.divInt_mul_divInt', Rat.num_divInt_den, Rat.num_divInt_den]

theorem qInv_eq (a : ℚ) : qInv a = a⁻¹ := by
  rw [qInv, Rat.mkRat_eq_divInt, Rat.inv_def']
  rcases le_or_lt 0 a.num with h | h
  · rw [if_pos h, Int.natAbs_of_nonneg h]
  · rw [if_neg (not_le.mpr h), Int.ofNat_natAbs_of_nonpos (le_of_lt h), Rat.divInt_neg, neg_neg]

theorem qDiv_eq (a b : ℚ) : qDiv a b = a / b := by
  rw [qDiv, qMul_eq, qInv_eq, div_eq_mul_inv]

theorem qSum_eq (l : List ℚ) : qSum l = l.sum := by
  induction l with
  | nil => rfl
  | cons a t ih => rw [qSum, qAdd_eq, ih, List.sum_cons]

theorem find_append_right {α} {p : α → Bool} {l1 l2 : List α} (h : ∀ x ∈ l1, ¬ p x = true) :
    (l1 ++ l2).find? p = l2.find? p := by
  induction l1 with
  | nil => rfl
  | cons a t ih =>
    rw [List.cons_append, List.find?_cons_of_neg _ (h a (List.mem_cons_self a t))]
    exact ih (fun x hx => h x (List.mem_cons_of_mem a hx))

theorem map_id_of_mem {α} (f : α → α) (l : List α) (h : ∀ x ∈ l, f x = x) :
    l.map f = l := by
  induction l with
  | nil => rfl
  | cons a t ih =>
    rw [List.map_cons, h a (List.mem_cons_self a t),
      ih (fun x hx => h x (List.mem_cons_of_mem a hx))]

/-- C1: adding a valid expense (positive amount) to a well-formed store and
fetching it back by the returned id yields a record whose date, category,
amount and description are exactly what was written. -/
theorem roundtrip_add_get (db : DB) (e : ExpenseInput) (hwf : db.WF) (hpos : 0 < e.amount) :
    (db.add_expense e).2.get_expense_by_id (db.add_expense e).1 =
      some ⟨db.nextId, e.date, e.category, e.amount, e.description⟩ := by
  unfold DB.add_expense DB.get_expense_by_id
  rw [find_append_right (fun x hx => by simpa using Nat.ne_of_lt (hwf x hx))]
  rw [List.find?_cons_of_pos _ (by simp)]

/-- Witness for C1 at a concrete store and expense. -/
theorem roundtrip_add_get_witness :
    (DB.empty.add_expense eFood1).2.get_expense_by_id (DB.empty.add_expense eFood1).1 =
      some ⟨1, "2024-01-15", "Food", 10000, ""⟩ :=
  roundtrip_add_get DB.empty eFood1 (fun r hr => by simp [DB.empty] at hr) (by decide)

/-- C3: a month containing no stored expenses yields total 0 and an empty
category breakdown, and the caught-error path returns the same zero
summary, so the method never raises. -/
theorem monthly_summary_empty_month (db : DB) (year month : Nat)
    (h : db.rows.filter (inMonth year month) = []) :
    db.get_monthly_summary year month = ⟨year, month, 0, []⟩ ∧
    get_monthly_summary_run true db year month = ⟨year, month, 0, []⟩ := by
  constructor
  · unfold DB.get_monthly_summary
    rw [h]
    rfl
  · rfl

/-- Witness for C3 on the empty store. -/
theorem monthly_summary_empty_month_witness :
    DB.empty.get_monthly_summary 2024 5 = ⟨2024, 5, 0, []⟩ :=
  (monthly_summary_empty_month DB.empty 2024 5 (by decide)).1

/-- C4: for an id matching no stored expense, delete returns `False`,
update returns `False`, fetch returns `None`, and the store is unchanged;
none of the three can raise (each is a total function). -/
theorem notfound_returns_false (db : DB) (i : Nat) (e : ExpenseInput)
    (h : ∀ r ∈ db.rows, r.id ≠ i) :
    db.delete_expense i = (false, db) ∧ db.update_expense i e = (false, db) ∧
    db.get_expense_by_id i = none := by
  refine ⟨?_, ?_, ?_⟩
  · unfold DB.delete_expense
    have hf : db.rows.filter (fun r => r.id != i) = db.rows :=
      List.filter_eq_self.mpr (fun r hr => by simpa using h r hr)
    rw [hf]
    simp [Nat.lt_irrefl]
  · unfold DB.update_expense
    have hm : (db.rows.map fun r =>
        if r.id = i then (⟨r.id, e.date, e.category, e.amount, e.description⟩ : Row) else r) =
        db.rows :=
      map_id_of_mem _ _ (fun r hr => if_neg (h r hr))
    have ha : (db.rows.any fun r => r.id == i) = false :=
      List.any_eq_false.mpr (fun r hr => by simpa using h r hr)
    rw [hm, ha]
  · exact List.find?_eq_none.mpr (fun r hr => by simpa using h r hr)

/-- Witness for C4 on a store holding one expense with a different id. -/
theorem notfound_returns_false_witness :
    dbScenario.delete_expense 7 = (false, dbScenario) ∧
    dbScenario.update_expense 7 eFood1 = (false, dbScenario) ∧
    dbScenario.get_expense_by_id 7 = none :=
  notfound_returns_false dbScenario 7 eFood1 (by decide)

/-- C5 counterexample: when the underlying database access fails,
`get_expenses`, `get_expense_by_id`, `update_expense` and `delete_expense`
catch the `sqlite3.Error` and return a normal empty/None/False result
instead of surfacing an error, contradicting the claim that every storage
operation propagates storage failures. -/
theorem storage_error_swallowed :
    get_expenses_run true DB.empty none none none = Except.ok [] ∧
    get_expense_by_id_run true DB.empty 1 = Except.ok none ∧
    update_expense_run true DB.empty 1 eFood1 = Except.ok (false, DB.empty) ∧
    delete_expense_run true DB.empty 1 = Except.ok (false, DB.empty) ∧
    get_expenses_run true DB.empty none none none ≠ Except.error () :=
  ⟨rfl, rfl, rfl, rfl, fun h => Except.noConfusion h⟩

/-- C5 as amended: only `add_expense` propagates an underlying storage
failure; the four other operations catch it and return `[]`, `None`,
`False` and `False` respectively, leaving the store unchanged. -/
theorem storage_error_semantics (db : DB) (e : ExpenseInput) (i : Nat)
    (m y : Option Nat) (c : Option String) :
    add_expense_run true db e = Except.error () ∧
    get_expenses_run true db m y c = Except.ok [] ∧
    get_expense_by_id_run true db i = Except.ok none ∧
    update_expense_run true db i e = Except.ok (false, db) ∧
    delete_expense_run true db i = Except.ok (false, db) :=
  ⟨rfl, rfl, rfl, rfl, rfl⟩

/-- C10: passing a month without a year applies no month filter at all:
the result is row-for-row the same as passing no month. -/
theorem lone_month_filter_ignored (db : DB) (m : Nat) (c : Option String) :
    db.get_expenses (some m) none c = db.get_expenses none none c := by
  have hfun : matchesFilters (some m) none c = matchesFilters none none c := by
    funext r
    simp [matchesFilters, truthyNat]
  rw [DB.get_expenses, DB.get_expenses, hfun]

theorem count_map_commaToDot (l : List Char) :
    (l.map commaToDot).count '.' = l.count '.' + l.count ',' := by
  induction l with
  | nil => rfl
  | cons a t ih =>
    by_cases h1 : a = ','
    · subst h1
      simp [List.count_cons, commaToDot, ih]
      omega
    · by_cases h2 : a = '.'
      · subst h2
        simp [List.count_cons, commaToDot, ih]
        omega
      · have hc : commaToDot a = a := by
          simp [commaToDot, h1]
        simp [List.count_cons, hc, h1, h2, ih]

theorem parseBody_many_dots (neg : Bool) (body : List Char) (h : 2 ≤ body.count '.') :
    parseBody neg body = none := by
  have h0 : ¬ body.count '.' = 0 := by omega
  have h1 : ¬ body.count '.' = 1 := by omega
  have hne : ¬ body = [] := by
    intro he
    rw [he] at h
    simp at h
  unfold parseBody
  rw [if_neg hne, if_neg h0, if_neg h1]
  split <;> rfl

theorem parseDecimal_many_dots (l : List Char) (h : 2 ≤ l.count '.') :
    parseDecimal l = none := by
  unfold parseDecimal
  split
  · next hh =>
    apply parseBody_many_dots
    cases l with
    | nil => simp at hh
    | cons a t =>
      simp only [List.head?_cons, Option.some.injEq] at hh
      subst hh
      simpa [List.count_cons] using h
  · exact parseBody_many_dots _ _ h

/-- C2: `validate_amount` rejects "0", "-100", "", and strings with two
decimal separators of the same kind; accepts "50000", "50,000" and
"Rp 100.000" (comma as decimal separator, currency symbols dropped); in
general it rejects any input whose cleaned form is empty, any input with
more than one decimal separator in total, and any input whose cleaned form
parses to a value ≤ 0. -/
theorem validate_amount_spec :
    validate_amount "0" = (false, some 0) ∧
    (validate_amount "-100").1 = false ∧
    (validate_amount "").1 = false ∧
    (validate_amount "1.000.000").1 = false ∧
    (validate_amount "1,000,000").1 = false ∧
    validate_amount "50000" = (true, some 50000) ∧
    (validate_amount "50,000").1 = true ∧
    (validate_amount "Rp 100.000").1 = true ∧
    (∀ s, cleanAmount s = [] → (validate_amount s).1 = false) ∧
    (∀ s, 2 ≤ (cleanAmount s).count '.' + (cleanAmount s).count ',' →
      (validate_amount s).1 = false) ∧
    (∀ s a, parseDecimal ((cleanAmount s).map commaToDot) = some a → a ≤ 0 →
      (validate_amount s).1 = false) := by
  refine ⟨by decide, by decide, by decide, by decide, by decide, by decide, by decide,
    by decide, ?_, ?_, ?_⟩
  · intro s h
    simp [validate_amount, h]
  · intro s h
    have hnone : parseDecimal ((cleanAmount s).map commaToDot) = none := by
      apply parseDecimal_many_dots
      rw [count_map_commaToDot]
      exact h
    by_cases h0 : cleanAmount s = []
    · simp [validate_amount, h0]
    · by_cases h1 : 1 < (cleanAmount s).count '.' ∨ 1 < (cleanAmount s).count ',' ∨
          1 < (cleanAmount s).count '-'
      · simp only [validate_amount]
        rw [if_neg h0, if_pos h1]
      · simp only [validate_amount]
        rw [if_neg h0, if_neg h1]
        split
        · rfl
        · rw [hnone]
  · intro s a hparse hle
    by_cases h0 : cleanAmount s = []
    · simp [validate_amount, h0]
    · by_cases h1 : 1 < (cleanAmount s).count '.' ∨ 1 < (cleanAmount s).count ',' ∨
          1 < (cleanAmount s).count '-'
      · simp only [validate_amount]
        rw [if_neg h0, if_pos h1]
      · simp only [validate_amount]
        rw [if_neg h0, if_neg h1]
        split
        · rfl
        · rw [hparse]
          simp [hle]

/-- Witness for C2's universally quantified clauses at concrete inputs. -/
theorem validate_amount_spec_witness :
    (validate_amount "xyz").1 = false ∧ (validate_amount "1.2,3").1 = false ∧
    (validate_amount "-0,5").1 = false :=
  ⟨validate_amount_spec.2.2.2.2.2.2.2.2.1 "xyz" (by decide),
   validate_amount_spec.2.2.2.2.2.2.2.2.2.1 "1.2,3" (by decide),
   validate_amount_spec.2.2.2.2.2.2.2.2.2.2 "-0,5" (-(mkRat 5 10)) (by decide) (by decide)⟩

theorem sum_map_add_q {α : Type} (l : List α) (f g : α → ℚ) :
    (l.map (fun x => f x + g x)).sum = (l.map f).sum + (l.map g).sum := by
  induction l with
  | nil => simp
  | cons a t ih =>
    simp only [List.map_cons, List.sum_cons, ih]
    ring

theorem sum_map_snd_div_mul (l : List (String × ℚ)) (T : ℚ) :
    (l.map (fun x => x.2 / T * 100)).sum = (l.map (fun x => x.2)).sum / T * 100 := by
  induction l with
  | nil => simp
  | cons a t ih =>
    simp only [List.map_cons, List.sum_cons, ih]
    ring

theorem sum_single_hit (cs : List String) (a : String) (x : ℚ)
    (hnd : cs.Nodup) (ha : a ∈ cs) :
    (cs.map (fun c => if a = c then x else 0)).sum = x := by
  induction cs with
  | nil => cases ha
  | cons b t ih =>
    rcases List.mem_cons.mp ha with rfl | ht
    · rw [List.map_cons, if_pos rfl, List.sum_cons]
      have hz : (t.map (fun c => if a = c then x else 0)).sum = 0 := by
        apply List.sum_eq_zero
        intro y hy
        obtain ⟨c, hc, rfl⟩ := List.mem_map.mp hy
        exact if_neg (fun (e : a = c) => (List.nodup_cons.mp hnd).1 (by rw [e]; exact hc))
      rw [hz, add_zero]
    · have hb : ¬ a = b := fun (e : a = b) => (List.nodup_cons.mp hnd).1 (e ▸ ht)
      rw [List.map_cons, if_neg hb, List.sum_cons,
        ih (List.nodup_cons.mp hnd).2 ht, zero_add]

theorem sumFor_cons (c : String) (r : Row) (t : List Row) :
    sumFor c (r :: t) = (if r.category = c then r.amount else 0) + sumFor c t := by
  by_cases h : r.category = c
  · simp [sumFor, qSum_eq, List.filter_cons, h]
  · simp [sumFor, qSum_eq, List.filter_cons, h]

theorem sum_over_categories (rows : List Row) (cs : List String)
    (hnd : cs.Nodup) (hmem : ∀ r ∈ rows, r.category ∈ cs) :
    (cs.map (fun c => sumFor c rows)).sum = (rows.map Row.amount).sum := by
  induction rows with
  | nil =>
    rw [List.map_nil, List.sum_nil]
    apply List.sum_eq_zero
    intro y hy
    obtain ⟨c, hc, rfl⟩ := List.mem_map.mp hy
    simp [sumFor, qSum_eq]
  | cons r t ih =>
    have hmt : ∀ x ∈ t, x.category ∈ cs := fun x hx => hmem x (List.mem_cons_of_mem r hx)
    have hr : r.category ∈ cs := hmem r (List.mem_cons_self r t)
    calc (cs.map (fun c => sumFor c (r :: t))).sum
        = (cs.map (fun c => (if r.category = c then r.amount else 0) + sumFor c t)).sum := by
          simp only [sumFor_cons]
      _ = (cs.map (fun c => if r.category = c then r.amount else 0)).sum +
          (cs.map (fun c => sumFor c t)).sum := sum_map_add_q cs _ _
      _ = r.amount + (t.map Row.amount).sum := by
          rw [sum_single_hit cs r.category r.amount hnd hr, ih hmt]
      _ = ((r :: t).map Row.amount).sum := by
          rw [List.map_cons, List.sum_cons]

theorem breakdown_sum_eq_total (db : DB) (year month : Nat) :
    ((db.get_monthly_summary year month).category_breakdown.map (fun p => p.2)).sum =
      (db.get_monthly_summary year month).total_expenses := by
  unfold DB.get_monthly_summary
  rw [List.Perm.sum_eq (List.Perm.map _ (List.perm_insertionSort sumDesc _))]
  rw [List.map_map]
  simp only [Function.comp]
  rw [qSum_eq]
  exact sum_over_categories _ _ (List.nodup_dedup _)
    (fun r hr => List.mem_dedup.mpr (List.mem_map_of_mem _ hr))

/-- C6: `get_expenses` returns exactly the stored rows matching the given
filters, ordered by date descending then creation order descending; on the
three-expense scenario, the January summary is 30000 with breakdown
[(Food, 30000)], the January query returns the two January rows with
2024-01-20 first, and the Transport query returns exactly the February
row. -/
theorem get_expenses_order_and_scenario :
    (∀ (db : DB) (m y : Option Nat) (c : Option String),
        List.Sorted rowOrder (db.get_expenses m y c) ∧
        (db.get_expenses m y c).Perm (db.rows.filter (matchesFilters m y c))) ∧
    dbScenario.get_monthly_summary 2024 1 = ⟨2024, 1, 30000, [("Food", 30000)]⟩ ∧
    dbScenario.get_expenses (some 1) (some 2024) none =
      [⟨2, "2024-01-20", "Food", 20000, ""⟩, ⟨1, "2024-01-15", "Food", 10000, ""⟩] ∧
    dbScenario.get_expenses none none (some "Transport") =
      [⟨3, "2024-02-01", "Transport", 5000, ""⟩] :=
  ⟨fun db m y c =>
    ⟨List.sorted_insertionSort rowOrder _, List.perm_insertionSort rowOrder _⟩,
   by decide, by decide, by decide⟩

/-- C7 counterexample: a month whose rows sum to zero but whose breakdown
is nonempty (one stored expense of amount 0) gets no `percentage` key on
its breakdown entry at all, rather than `percentage = 0` as claimed. -/
theorem percentage_missing_on_zero_total :
    (ExpenseService.get_monthly_analysis dbZero 2024 3).total_expenses = 0 ∧
    ((ExpenseService.get_monthly_analysis dbZero 2024 3).category_breakdown.map
        BreakdownItem.percentage) = [none] := by decide

/-- C7 as amended: whenever the monthly total is positive, every breakdown
entry is augmented with percentage = total_i / total * 100, and over exact
rational arithmetic those percentages sum to exactly 100; when the total
is zero the entries are left without a percentage field. -/
theorem percentages_sum_to_100 (db : DB) (year month : Nat)
    (h : 0 < (db.get_monthly_summary year month).total_expenses) :
    (∀ item ∈ (ExpenseService.get_monthly_analysis db year month).category_breakdown,
        item.percentage =
          some (item.total / (db.get_monthly_summary year month).total_expenses * 100)) ∧
    ((ExpenseService.get_monthly_analysis db year month).category_breakdown.map
        (fun it => it.percentage.getD 0)).sum = 100 := by
  have hsum := breakdown_sum_eq_total db year month
  simp only [ExpenseService.get_monthly_analysis]
  rw [if_pos h]
  constructor
  · intro item him
    obtain ⟨p, hp, rfl⟩ := List.mem_map.mp him
    simp [qMul_eq, qDiv_eq]
  · simp only [List.map_map, Function.comp_def, Option.getD_some, qMul_eq, qDiv_eq]
    rw [sum_map_snd_div_mul, hsum, div_self (ne_of_gt h), one_mul]

/-- Witness for C7 on the scenario store, whose January total is 30000. -/
theorem percentages_sum_to_100_witness :
    0 < (dbScenario.get_monthly_summary 2024 1).total_expenses ∧
    ((ExpenseService.get_monthly_analysis dbScenario 2024 1).category_breakdown.map
        (fun it => it.percentage.getD 0)).sum = 100 :=
  ⟨by decide, (percentages_sum_to_100 dbScenario 2024 1 (by decide)).2⟩

/-- C8 counterexample: `create_expense` performs no category validation:
with a valid date and amount but an empty category it reports success and
writes the expense, contradicting the claim that an empty category yields
a failure result with no expense written. -/
theorem create_expense_empty_category :
    (ExpenseService.create_expense DB.empty "2024-01-15" "" "100" "").1.success = true ∧
    ((ExpenseService.create_expense DB.empty "2024-01-15" "" "100" "").2.rows.map
        Row.category) = [""] := by decide

/-- C8 as amended: both service entry points return structured results and
are total functions (no user-input error can raise): an unparseable date
or an invalid/non-positive amount yields success = false, an error
message, and no write, on both `create_expense` and `update_expense`; a
blank category is rejected by `update_expense`; but `create_expense`
performs no category check and happily writes an expense whose category is
empty. -/
theorem service_input_error_results (db : DB) (i : Nat) (d c a dsc : String) :
    (strptimeYmd d = none →
      (ExpenseService.create_expense db d c a dsc).1.success = false ∧
      (ExpenseService.create_expense db d c a dsc).1.error.isSome = true ∧
      (ExpenseService.create_expense db d c a dsc).2 = db) ∧
    (parse_amount a ≤ 0 →
      (ExpenseService.create_expense db d c a dsc).1.success = false ∧
      (ExpenseService.create_expense db d c a dsc).1.error.isSome = true ∧
      (ExpenseService.create_expense db d c a dsc).2 = db) ∧
    (strptimeYmd d = none →
      (ExpenseService.update_expense db i d c a dsc).1.success = false ∧
      (ExpenseService.update_expense db i d c a dsc).1.error.isSome = true ∧
      (ExpenseService.update_expense db i d c a dsc).2 = db) ∧
    (parse_amount a ≤ 0 →
      (ExpenseService.update_expense db i d c a dsc).1.success = false ∧
      (ExpenseService.update_expense db i d c a dsc).1.error.isSome = true ∧
      (ExpenseService.update_expense db i d c a dsc).2 = db) ∧
    ((c.toList.dropWhile Char.isWhitespace).reverse.dropWhile Char.isWhitespace = [] →
      (ExpenseService.update_expense db i d c a dsc).1.success = false ∧
      (ExpenseService.update_expense db i d c a dsc).1.error.isSome = true ∧
      (ExpenseService.update_expense db i d c a dsc).2 = db) ∧
    (∀ dt, strptimeYmd d = some dt → 0 < parse_amount a →
      (ExpenseService.create_expense db d "" a dsc).1.success = true ∧
      (ExpenseService.create_expense db d "" a dsc).2.rows =
        db.rows ++ [⟨db.nextId, dateToIso dt, "", parse_amount a, dsc⟩]) := by
  refine ⟨?_, ?_, ?_, ?_, ?_, ?_⟩
  · intro hd
    simp [ExpenseService.create_expense, hd]
  · intro ha
    cases hd : strptimeYmd d with
    | none => simp [ExpenseService.create_expense, hd]
    | some dt => simp [ExpenseService.create_expense, hd, ha]
  · intro hd
    cases hv : serviceValidationErrors a c with
    | nil => simp [ExpenseService.update_expense, hv, hd]
    | cons e es => simp [ExpenseService.update_expense, hv]
  · intro ha
    simp [ExpenseService.update_expense, serviceValidationErrors, ha]
  · intro hc
    by_cases ha : parse_amount a ≤ 0
    · simp [ExpenseService.update_expense, serviceValidationErrors, ha]
    · have hv : serviceValidationErrors a c = ["Category is required"] := by
        unfold serviceValidationErrors
        rw [if_neg ha, if_pos hc, List.nil_append]
      simp [ExpenseService.update_expense, hv]
  · intro dt hd hpa
    simp [ExpenseService.create_expense, hd, DB.add_expense, not_le.mpr hpa]

/-- Witness for C8 at concrete inputs: a bad date, a zero amount, a blank
category on update, and the empty-category create that succeeds. -/
theorem service_input_error_results_witness :
    (ExpenseService.create_expense DB.empty "garbage" "Food" "100" "").1.success = false ∧
    (ExpenseService.update_expense DB.empty 1 "2024-01-15" "Food" "0" "").1.success = false ∧
    (ExpenseService.update_expense DB.empty 1 "2024-01-15" "" "100" "").1.success = false ∧
    (ExpenseService.create_expense DB.empty "2024-01-15" "" "100" "").1.success = true :=
  ⟨((service_input_error_results DB.empty 1 "garbage" "Food" "100" "").1 (by decide)).1,
   ((service_input_error_results DB.empty 1 "2024-01-15" "Food" "0" "").2.2.2.1 (by decide)).1,
   ((service_input_error_results DB.empty 1 "2024-01-15" "" "100" "").2.2.2.2.1 (by decide)).1,
   ((service_input_error_results DB.empty 1 "2024-01-15" "" "100" "").2.2.2.2.2 (2024, 1, 15)
      (by decide) (by decide)).1⟩

/-- C9 counterexample: the schema check constraint of
`config/database_config.py` is `amount >= 0`, which admits 0 — it does not
enforce `amount > 0` — and the storage layer accepts an amount-0 insert,
producing a stored expense violating the claimed invariant. -/
theorem amount_check_allows_zero :
    configAmountCheck 0 = true ∧ ¬ ((0 : ℚ) > 0) ∧
    dbZero.rows.map Row.amount = [0] := by decide

/-- C9 as amended: strict positivity is enforced only by the validated
create path (amount ≤ 0 is rejected before any write); the
`database_config` schema variant's check constraint enforces exactly
`amount ≥ 0` (zero admissible); and the storage-level `add_expense`
performs no amount check, appending whatever amount it is given. -/
theorem amount_invariant_enforcement (db : DB) (d c a dsc : String) (e : ExpenseInput)
    (h : parse_amount a ≤ 0) :
    ((ExpenseService.create_expense db d c a dsc).1.success = false ∧
      (ExpenseService.create_expense db d c a dsc).2 = db) ∧
    (∀ q : ℚ, configAmountCheck q = true ↔ 0 ≤ q) ∧
    (db.add_expense e).2.rows =
      db.rows ++ [⟨db.nextId, e.date, e.category, e.amount, e.description⟩] := by
  refine ⟨?_, fun q => by simp [configAmountCheck], rfl⟩
  cases hd : strptimeYmd d with
  | none => simp [ExpenseService.create_expense, hd]
  | some dt => simp [ExpenseService.create_expense, hd, h]

/-- Witness for C9 at a concrete rejected amount. -/
theorem amount_invariant_enforcement_witness :
    (ExpenseService.create_expense DB.empty "2024-01-15" "Food" "-5" "").1.success = false ∧
    (ExpenseService.create_expense DB.empty "2024-01-15" "Food" "-5" "").2 = DB.empty :=
  (amount_invariant_enforcement DB.empty "2024-01-15" "Food" "-5" "" eFood1 (by decide)).1
